import Mathlib

/-!
Verification of the gunrock SSSP functor (`gunrock/app/sssp/sssp_functor.cuh`)
and the connected-components host entry point (`test_cc.cu`) against the
repository's natural-language specification.

The device functions are shallowly embedded as pure Lean functions: the
`DataSlice` pointer becomes an explicit state record, CUDA `atomicMin` on a
single call becomes the corresponding read-modify-write on that record, and
`unsigned int` arithmetic is `Nat` arithmetic reduced modulo `2^32` at the one
addition where overflow matters. Device `float` (binary32) arithmetic in the
priority-scoring path is modelled value-exactly over `ℚ`: conversions and the
division round their exact rational result to 24 significant bits with
round-to-nearest, ties-to-even, and the float-to-unsigned return conversion
truncates with the device's saturating behavior. The host entry point is
embedded as a pure function from its inputs to a record of its observable
behavior (which engine arguments it passes on, what it prints, and what it
returns to the caller).
-/

namespace Gunrock

/-- The modulus of `unsigned int` arithmetic on the device (2^32). -/
def U32 : Nat := 4294967296

/-- Round a rational to the nearest integer, ties to even: the rounding mode
of IEEE-754 binary32 arithmetic, applied to the scaled significand. -/
def rne (q : ℚ) : Int :=
  let f := Int.floor q
  if q - f < 1/2 then f
  else if (1:ℚ)/2 < q - f then f + 1
  else if f % 2 = 0 then f else f + 1

/-- The binade exponent of a positive rational: the unique `e` with
`2^e ≤ q < 2^(e+1)`, computed from the bit lengths of numerator and
denominator (their difference is off by at most one, fixed by the test). -/
def ratFloorLog2 (q : ℚ) : Int :=
  let d : Int := (Nat.log2 q.num.toNat : Int) - (Nat.log2 q.den : Int)
  if (2 : ℚ) ^ d ≤ q then d else d - 1

/-- Round a positive rational to IEEE-754 binary32 (24-bit significand,
round to nearest, ties to even): the value is rounded to the nearest
multiple of `2^(e-23)` where `e` is its binade exponent. Nonpositive inputs
map to 0. The exponent is not clamped to the normal range [-126, 127]: the
values this model feeds into `f32ToUint` make that unobservable — any
quotient below 1 truncates to 0 whether or not it is rounded on the coarser
subnormal grid, and any value at or above 2^32 saturates exactly as the
device's overflow-to-infinity does. -/
def f32Round (q : ℚ) : ℚ :=
  if q ≤ 0 then 0
  else
    let e := ratFloorLog2 q
    let ulp : ℚ := (2 : ℚ) ^ (e - 23)
    ((rne (q / ulp) : ℚ)) * ulp

/-- The device's float-to-`unsigned int` conversion (`cvt.rzi.u32.f32`):
truncate toward zero, saturating at 0 below and at `UINT_MAX` above (the C
conversion is undefined outside the range; the CUDA hardware saturates). -/
def f32ToUint (q : ℚ) : Nat :=
  if q ≤ 0 then 0
  else if (4294967295 : ℚ) ≤ q then 4294967295
  else (Int.floor q).toNat

namespace SSSP

/-- State record for the SSSP `DataSlice` (`sssp_problem.cuh` data slice as used
by `sssp_functor.cuh`): per-vertex distance labels `d_labels` (unsigned int),
per-vertex predecessors `d_preds` (signed `VertexId`), per-edge weights
`d_weights` (unsigned int), and the delta-stepping bucket width `d_delta`
(a device `float`, modelled as an exact rational). `VertexId` is a signed
integer type, modelled as `Int`; indexing is total as in the CUDA source
(no bounds checks are performed by the device code). -/
structure DataSlice where
  d_labels : Int → Nat
  d_preds : Int → Int
  d_weights : Int → Nat
  d_delta : ℚ

/-- Embedding of `SSSPFunctor::CondEdge` (sssp_functor.cuh lines 48-61):
loads `label = d_labels[s_id]` and `weight = d_weights[e_id]`, computes
`new_weight = weight + label` in unsigned 32-bit arithmetic, performs
`atomicMin(&d_labels[d_id], new_weight)` (which stores the minimum and
returns the old value), and returns `new_weight < old`. The single-call
semantics of the atomic is the sequential read-modify-write. -/
def CondEdge (s_id d_id : Int) (problem : DataSlice) (e_id : Int) :
    DataSlice × Bool :=
  let label := problem.d_labels s_id
  let weight := problem.d_weights e_id
  let new_weight := (weight + label) % U32
  let old := problem.d_labels d_id
  ({ problem with
      d_labels := Function.update problem.d_labels d_id (min old new_weight) },
   decide (new_weight < old))

/-- Embedding of `SSSPFunctor::ApplyEdge` (sssp_functor.cuh lines 75-80):
if `ProblemData::MARK_PATHS` (a compile-time flag, passed here as a
parameter) then store `s_id` into `d_preds[d_id]`; otherwise do nothing. -/
def ApplyEdge (MARK_PATHS : Bool) (s_id d_id : Int) (problem : DataSlice) :
    DataSlice :=
  if MARK_PATHS then
    { problem with d_preds := Function.update problem.d_preds d_id s_id }
  else problem

/-- Embedding of `SSSPFunctor::CondFilter` (sssp_functor.cuh lines 91-94):
`return (node != -1)`. The `problem` argument is received but unused, as in
the source. -/
def CondFilter (node : Int) (problem : DataSlice) : Bool :=
  decide (node ≠ -1)

/-- Embedding of `SSSPFunctor::ApplyFilter` (sssp_functor.cuh lines 104-107):
the body is empty ("Doing nothing here"), so the state is returned
unchanged. -/
def ApplyFilter (node : Int) (problem : DataSlice) : DataSlice :=
  problem

/-- Embedding of `PQFunctor::ComputePriorityScore` (sssp_functor.cuh lines
125-134): loads `weight = d_labels[node_id]` (unsigned int) and
`delta = d_delta` (float), and returns `(delta == 0) ? weight : weight/delta`
as `unsigned int`. The C ternary's common type is `float`, so `weight` is
converted to binary32 (`f32Round`, round to nearest even) on *both* branches;
on the nonzero-delta branch the float quotient is itself rounded to binary32;
the return type converts the chosen float back to `unsigned int`
(`f32ToUint`, truncate with saturation). `d_delta` already holds a float's
value, so its load is exact. -/
def ComputePriorityScore (node_id : Int) (problem : DataSlice) : Nat :=
  let weight := problem.d_labels node_id
  let delta := problem.d_delta
  let wf := f32Round (weight : ℚ)
  if delta = 0 then f32ToUint wf else f32ToUint (f32Round (wf / delta))

/-- A concrete `DataSlice` used by witnesses: vertex 0 holds the `UINT_MAX`
infinity sentinel, vertex 1 holds label 10, every other vertex holds 7;
every edge has weight 5; delta is 2. -/
def exampleSlice : DataSlice where
  d_labels := fun v => if v = 0 then 4294967295 else if v = 1 then 10 else 7
  d_preds := fun _ => -1
  d_weights := fun _ => 5
  d_delta := 2

/-- The same labels with `delta = 0` (priority scoring by label). -/
def exampleSliceDelta0 : DataSlice where
  d_labels := fun v => if v = 0 then 4294967295 else if v = 1 then 10 else 7
  d_preds := fun _ => -1
  d_weights := fun _ => 5
  d_delta := 0

/-- A slice whose label `2^24 + 1` is not representable in binary32, with
`delta = 0`. -/
def exampleSliceBig : DataSlice where
  d_labels := fun _ => 16777217
  d_preds := fun _ => -1
  d_weights := fun _ => 0
  d_delta := 0

/-- A slice holding the `UINT_MAX` infinity sentinel with `delta = 2`. -/
def exampleSliceHalf : DataSlice where
  d_labels := fun _ => 4294967295
  d_preds := fun _ => -1
  d_weights := fun _ => 0
  d_delta := 2

/-- One invocation of an SSSP functor entry point, as dispatched by the
Advance/Filter kernels: the ids it is called on, and for `ApplyEdge` the
compile-time `MARK_PATHS` flag of its `ProblemData` instantiation. -/
inductive FunctorOp where
  | condEdge (s_id d_id e_id : Int)
  | applyEdge (mark : Bool) (s_id d_id : Int)
  | condFilter (node : Int)
  | applyFilter (node : Int)
  | priorityScore (node : Int)

/-- The effect of one functor invocation on the data slice. `CondFilter` and
`ComputePriorityScore` perform no stores in the source (they only load and
return a value), so they leave the slice unchanged. -/
def applyFunctorOp : FunctorOp → DataSlice → DataSlice
  | .condEdge s d e, p => (CondEdge s d p e).1
  | .applyEdge m s d, p => ApplyEdge m s d p
  | .condFilter _, p => p
  | .applyFilter n, p => ApplyFilter n p
  | .priorityScore _, p => p

/-- The effect of a sequence of functor invocations, first to last. -/
def runOps : List FunctorOp → DataSlice → DataSlice
  | [], p => p
  | op :: ops, p => runOps ops (applyFunctorOp op p)

/-- The immutable CSR topology (spec section 3 Graph Store): `row_offsets`
of length `nodes + 1` and `column_indices` of length `edges`. The device
functors receive only a `DataSlice*`, so the topology arrays are not even
addressable from them. -/
structure GraphStore where
  nodes : Nat
  edges : Nat
  row_offsets : Nat → Nat
  column_indices : Nat → Int

/-- The full accelerator-resident state of one SSSP run: the shared
read-only graph plus the per-run data slice. -/
structure FullState where
  graph : GraphStore
  slice : DataSlice

/-- Running a sequence of functor invocations on the full state: each entry
point is handed only the `DataSlice` pointer (as in the CUDA source), so
only the slice component evolves. -/
def runOpsFull (ops : List FunctorOp) (st : FullState) : FullState :=
  { st with slice := runOps ops st.slice }

end SSSP

namespace CC

/-- Vertex-id type tags of `GunrockDataType` as consumed by `dispatch_cc`
(`test_cc.cu` lines 209-254; the declaring header `gunrock.h` is not under
src/, so the constructors are the ones the dispatch switch names). -/
inductive VtxidType where
  | VTXID_INT

/-- Size type tags of `GunrockDataType` as consumed by `dispatch_cc`. -/
inductive SizetType where
  | SIZET_INT

/-- Value type tags of `GunrockDataType` as consumed by `dispatch_cc`. -/
inductive ValueType where
  | VALUE_INT
  | VALUE_UINT
  | VALUE_FLOAT

/-- The data-type selector passed to the CC entry point. -/
structure GunrockDataType where
  VTXID_TYPE : VtxidType
  SIZET_TYPE : SizetType
  VALUE_TYPE : ValueType

/-- Modelled from the spec: the recognized configuration surface
`{ max_grid_size: int (0 = auto), num_partitions: int (at least 1),
mark_paths: bool, delta: float }` (spec section 6); the declaring header
`gunrock.h` is not under src/. `dispatch_cc` in `test_cc.cu` receives this
record and, per its source, never reads any field of it. -/
structure GunrockConfig where
  max_grid_size : Int
  num_partitions : Int
  mark_paths : Bool
  delta : ℚ

/-- The caller-facing graph descriptor (`GunrockGraph`): counts and the
CSR arrays, plus the `node_values` output slot. Array contents are modelled
as total functions from positions. -/
structure GunrockGraph where
  num_nodes : Int
  num_edges : Int
  row_offsets : Nat → Int
  col_indices : Nat → Int
  node_values : Nat → Int

/-- The structured result the spec's exit contract promises (success,
initialization failure, enact failure, unsupported type combination);
used to describe what, if anything, the C entry point hands back. -/
inductive CCResult where
  | success
  | initFailure
  | enactFailure
  | unsupportedTypeCombination

/-- The arguments `dispatch_cc` passes to `run_cc` for the engine
instantiation: the kernel grid-size bound and the number of GPUs. -/
structure RunCCArgs where
  max_grid_size : Int
  num_gpus : Int

/-- Observable behavior of one `dispatch_cc` call: the engine arguments it
invoked `run_cc` with (`none` when the type combination is not run), the
lines it printed to stdout at dispatch level, and the value it returned to
the caller (`none` always: the C function has return type `void`). -/
structure DispatchBehavior where
  ranWith : Option RunCCArgs
  stdout : List String
  returnedResult : Option CCResult

/-- The message `dispatch_cc` prints for an unimplemented type
combination (`test_cc.cu` lines 240 and 245). -/
def unsupportedMsg : String := "Not Yet Support This DataType Combination.\n"

/-- Embedding of `dispatch_cc` (`test_cc.cu` lines 203-255): the triple
switch on `(VTXID_TYPE, SIZET_TYPE, VALUE_TYPE)`. For `(int, int, int)` it
builds a `Csr` that shares the input arrays by pointer, calls
`run_cc<int, int, int>` with the local literals `max_grid_size = 0` and
`num_gpus = 1` (the `cc_config` parameter is never read), and then resets
the local struct's pointers to NULL. For `(int, int, uint)` and
`(int, int, float)` it prints `unsupportedMsg` and does nothing else. The
function is `void`, so `returnedResult` is `none` on every path; the input
graph's arrays are never written through (`ggraph_in` is const), so the
second component returns them unchanged. -/
def dispatch_cc (cc_config : GunrockConfig) (data_type : GunrockDataType)
    (ggraph_in : GunrockGraph) : DispatchBehavior × GunrockGraph :=
  match data_type.VTXID_TYPE, data_type.SIZET_TYPE, data_type.VALUE_TYPE with
  | .VTXID_INT, .SIZET_INT, .VALUE_INT =>
      ({ ranWith := some { max_grid_size := 0, num_gpus := 1 },
         stdout := [],
         returnedResult := none }, ggraph_in)
  | .VTXID_INT, .SIZET_INT, .VALUE_UINT =>
      ({ ranWith := none,
         stdout := [unsupportedMsg],
         returnedResult := none }, ggraph_in)
  | .VTXID_INT, .SIZET_INT, .VALUE_FLOAT =>
      ({ ranWith := none,
         stdout := [unsupportedMsg],
         returnedResult := none }, ggraph_in)

/-- Embedding of `gunrock_cc_func` (`test_cc.cu` lines 265-273): it only
forwards its arguments to `dispatch_cc`. -/
def gunrock_cc_func (cc_configs : GunrockConfig)
    (data_type : GunrockDataType) (ggraph_in : GunrockGraph) :
    DispatchBehavior × GunrockGraph :=
  dispatch_cc cc_configs data_type ggraph_in

/-- Success/failure of the four GPU stages `run_cc` drives (Problem `Init`,
`Reset`, `Enact`, `Extract`); their outcomes are produced by the CUDA
runtime and are inputs to the host-side control flow modelled here. -/
structure StageOutcomes where
  initOk : Bool
  resetOk : Bool
  enactOk : Bool
  extractOk : Bool

/-- Observable behavior of one `run_cc` call: the error lines printed, the
value returned to the caller (`none` always: the C function has return type
`void`), and whether the host process was terminated. -/
structure RunCCBehavior where
  errorsPrinted : List String
  returnedResult : Option CCResult
  processTerminated : Bool

/-- Message passed to `GRError` when Problem `Init` fails (`test_cc.cu`
line 154). -/
def msgInitFailed : String := "CC Problem Initialization Failed"

/-- Message passed to `GRError` when Problem `Reset` fails (`test_cc.cu`
line 159). -/
def msgResetFailed : String := "CC Problem Data Reset Failed"

/-- Message passed to `GRError` when `Enact` fails (`test_cc.cu`
line 167). -/
def msgEnactFailed : String := "CC Problem Enact Failed"

/-- Message passed to `GRError` when `Extract` fails (`test_cc.cu`
line 173). -/
def msgExtractFailed : String := "CC Problem Data Extraction Failed"

/-- Modelled from the spec: `util::GRError` (declared outside src/) checks a
stage's result, prints the supplied message when the stage failed, and
returns without terminating the process ("operations return/report an
explicit result; none of the failure paths terminate the host process",
spec section 7). Its observable effect is the list of lines printed. -/
def GRError (ok : Bool) (message : String) : List String :=
  if ok then [] else [message]

/-- Embedding of `run_cc` (`test_cc.cu` lines 128-193): wraps each of the
four GPU stages in `GRError` with a stage-specific message and continues
regardless of failure; the function is `void`, so nothing is returned to
the caller, and no path terminates the process. -/
def run_cc (oc : StageOutcomes) : RunCCBehavior :=
  { errorsPrinted :=
      GRError oc.initOk msgInitFailed ++
      GRError oc.resetOk msgResetFailed ++
      GRError oc.enactOk msgEnactFailed ++
      GRError oc.extractOk msgExtractFailed,
    returnedResult := none,
    processTerminated := false }

/-- A concrete configuration used by counterexamples and witnesses: the
caller asks for `max_grid_size = 5` and `num_partitions = 2`. -/
def cfg0 : GunrockConfig where
  max_grid_size := 5
  num_partitions := 2
  mark_paths := true
  delta := 0

/-- A concrete empty input graph descriptor. -/
def g0 : GunrockGraph where
  num_nodes := 0
  num_edges := 0
  row_offsets := fun _ => 0
  col_indices := fun _ => 0
  node_values := fun _ => 0

/-- The supported data-type selector `(int, int, int)`. -/
def dtInt : GunrockDataType where
  VTXID_TYPE := .VTXID_INT
  SIZET_TYPE := .SIZET_INT
  VALUE_TYPE := .VALUE_INT

/-- The unimplemented data-type selector `(int, int, uint)`. -/
def dtUint : GunrockDataType where
  VTXID_TYPE := .VTXID_INT
  SIZET_TYPE := .SIZET_INT
  VALUE_TYPE := .VALUE_UINT

/-- The unimplemented data-type selector `(int, int, float)`. -/
def dtFloat : GunrockDataType where
  VTXID_TYPE := .VTXID_INT
  SIZET_TYPE := .SIZET_INT
  VALUE_TYPE := .VALUE_FLOAT

end CC

/-- `Nat.log2 1 = 0`, needed to discharge the denominator term of
`ratFloorLog2` on integer inputs. -/
theorem log2_one_eq : Nat.log2 1 = 0 := by
  rw [Nat.log2_eq_log_two]
  exact Nat.log_one_right 2

/-- The binade of `2^24 + 1` is 24. -/
theorem log2_pow24_succ : Nat.log2 16777217 = 24 := by
  rw [Nat.log2_eq_log_two]
  exact Nat.log_eq_of_pow_le_of_lt_pow (by norm_num) (by norm_num)

/-- The binade of `UINT_MAX` is 31. -/
theorem log2_uintmax : Nat.log2 4294967295 = 31 := by
  rw [Nat.log2_eq_log_two]
  exact Nat.log_eq_of_pow_le_of_lt_pow (by norm_num) (by norm_num)

/-- The binade of `2^31` is 31. -/
theorem log2_pow31 : Nat.log2 2147483648 = 31 := by
  rw [Nat.log2_eq_log_two]
  exact Nat.log_eq_of_pow_le_of_lt_pow (by norm_num) (by norm_num)

/-- Round-to-nearest-even fixes integers. -/
theorem rne_intCast (m : ℤ) : rne (m : ℚ) = m := by
  simp [rne]

/-- Round-to-nearest-even fixes natural numbers. -/
theorem rne_natCast (m : ℕ) : rne (m : ℚ) = m := by
  simpa using rne_intCast m

theorem num_toNat_pow24_succ : (16777217 : ℚ).num.toNat = 16777217 := rfl

theorem den_pow24_succ : (16777217 : ℚ).den = 1 := rfl

theorem num_toNat_uintmax : (4294967295 : ℚ).num.toNat = 4294967295 := rfl

theorem den_uintmax : (4294967295 : ℚ).den = 1 := rfl

theorem num_toNat_pow31 : (2147483648 : ℚ).num.toNat = 2147483648 := rfl

theorem den_pow31 : (2147483648 : ℚ).den = 1 := rfl

theorem flog_pow24_succ : ratFloorLog2 (16777217 : ℚ) = 24 := by
  unfold ratFloorLog2
  rw [num_toNat_pow24_succ, den_pow24_succ, log2_pow24_succ, log2_one_eq]
  norm_num

/-- `2^24 + 1` lies exactly halfway between the binary32 neighbors `2^24`
and `2^24 + 2`; the even-significand tie-break rounds it down to `2^24`. -/
theorem f32Round_pow24_succ : f32Round (16777217 : ℚ) = 16777216 := by
  rw [f32Round]
  norm_num [flog_pow24_succ, rne]

theorem f32ToUint_pow24 : f32ToUint (16777216 : ℚ) = 16777216 := by
  norm_num [f32ToUint]
  rfl

theorem flog_uintmax : ratFloorLog2 (4294967295 : ℚ) = 31 := by
  unfold ratFloorLog2
  rw [num_toNat_uintmax, den_uintmax, log2_uintmax, log2_one_eq]
  norm_num

/-- `UINT_MAX` is 255.75 units below `2^32` in a binade whose spacing is
256, so binary32 rounds it up to `2^32`. -/
theorem f32Round_uintmax : f32Round (4294967295 : ℚ) = 4294967296 := by
  rw [f32Round]
  norm_num [flog_uintmax, rne]

theorem flog_pow31 : ratFloorLog2 (2147483648 : ℚ) = 31 := by
  unfold ratFloorLog2
  rw [num_toNat_pow31, den_pow31, log2_pow31, log2_one_eq]
  norm_num

/-- `2^32 / 2 = 2^31` is exactly representable, so the quotient rounding
fixes it. -/
theorem f32Round_pow32_div_two : f32Round ((4294967296 : ℚ) / 2) = 2147483648 := by
  have harg : ((4294967296 : ℚ) / 2) = 2147483648 := by norm_num
  rw [harg, f32Round]
  norm_num [flog_pow31, rne]

theorem f32ToUint_pow31 : f32ToUint (2147483648 : ℚ) = 2147483648 := by
  norm_num [f32ToUint]
  rfl

theorem cast_pow24_succ : ((16777217 : ℕ) : ℚ) = (16777217 : ℚ) := by norm_num

theorem cast_uintmax : ((4294967295 : ℕ) : ℚ) = (4294967295 : ℚ) := by norm_num

/-- The binade lower bound `2 ^ Nat.log2 n ≤ n` for `n ≠ 0`. -/
theorem pow_log2_le (n : Nat) (h : n ≠ 0) : 2 ^ Nat.log2 n ≤ n := by
  rw [Nat.log2_eq_log_two]
  exact Nat.pow_log_le_self 2 h

/-- On a positive natural number the rational binade computation agrees
with `Nat.log2`. -/
theorem ratFloorLog2_natCast (n : Nat) (h : n ≠ 0) :
    ratFloorLog2 (n : ℚ) = Nat.log2 n := by
  unfold ratFloorLog2
  rw [Rat.num_natCast, Rat.den_natCast, Int.toNat_natCast, log2_one_eq]
  rw [if_pos]
  · omega
  · have h2 : ((2 ^ Nat.log2 n : ℕ) : ℚ) ≤ (n : ℚ) :=
      Nat.cast_le.mpr (pow_log2_le n h)
    calc (2 : ℚ) ^ ((Nat.log2 n : ℤ) - (0 : ℤ))
        = (2 : ℚ) ^ ((Nat.log2 n : ℕ) : ℤ) := by norm_num
      _ = ((2 ^ Nat.log2 n : ℕ) : ℚ) := by
          push_cast [zpow_natCast]
          ring
      _ ≤ (n : ℚ) := h2

/-- Binary32 conversion is exact on naturals below `2^24`: with at most 24
significant bits the unit in the last place is at most 1, so nothing is
rounded away. -/
theorem f32Round_natCast_lt (n : Nat) (h : n < 16777216) :
    f32Round (n : ℚ) = n := by
  rcases Nat.eq_zero_or_pos n with h0 | h1
  · subst h0
    simp [f32Round]
  · have hne : n ≠ 0 := Nat.pos_iff_ne_zero.mp h1
    have hq : ¬ ((n : ℚ) ≤ 0) := by
      push_neg
      exact_mod_cast h1
    rw [f32Round, if_neg hq, ratFloorLog2_natCast n hne]
    show ((rne ((n : ℚ) / (2 : ℚ) ^ ((Nat.log2 n : ℤ) - 23)) : ℚ))
        * (2 : ℚ) ^ ((Nat.log2 n : ℤ) - 23) = (n : ℚ)
    have hk23 : Nat.log2 n ≤ 23 := by
      rw [Nat.log2_eq_log_two]
      have := Nat.log_lt_of_lt_pow hne (show n < 2 ^ 24 by omega)
      omega
    have hsub : ((Nat.log2 n : ℤ) - 23) = -(((23 - Nat.log2 n : ℕ)) : ℤ) := by
      omega
    have hdiv : (n : ℚ) / (2 : ℚ) ^ ((Nat.log2 n : ℤ) - 23)
        = ((n * 2 ^ (23 - Nat.log2 n) : ℕ) : ℚ) := by
      rw [hsub, zpow_neg, div_eq_mul_inv, inv_inv]
      push_cast [zpow_natCast]
      ring
    rw [hdiv, rne_natCast, hsub, zpow_neg]
    push_cast [zpow_natCast]
    exact mul_inv_cancel_right₀ (by positivity) _

/-- The float-to-unsigned conversion is plain truncation on naturals below
the saturation point, hence the identity on them. -/
theorem f32ToUint_natCast_lt (n : Nat) (h : n < 4294967295) :
    f32ToUint (n : ℚ) = n := by
  rcases Nat.eq_zero_or_pos n with h0 | h1
  · subst h0
    simp [f32ToUint]
  · have hq : ¬ ((n : ℚ) ≤ 0) := by
      push_neg
      exact_mod_cast h1
    have hq2 : ¬ ((4294967295 : ℚ) ≤ (n : ℚ)) := by
      push_neg
      exact_mod_cast h
    rw [f32ToUint, if_neg hq, if_neg hq2, Int.floor_natCast, Int.toNat_natCast]

namespace SSSP

/-- No single functor invocation increases any label: `CondEdge` replaces
`d_labels[d_id]` by a minimum and the other entry points never write
labels. -/
theorem applyFunctorOp_labels_le (op : FunctorOp) (p : DataSlice) (v : Int) :
    (applyFunctorOp op p).d_labels v ≤ p.d_labels v := by
  cases op with
  | condEdge s d e =>
      by_cases hv : v = d
      · subst hv
        simp [applyFunctorOp, CondEdge]
      · simp [applyFunctorOp, CondEdge, Function.update_noteq hv]
  | applyEdge m s d =>
      cases m <;> simp [applyFunctorOp, ApplyEdge]
  | condFilter n => simp [applyFunctorOp]
  | applyFilter n => simp [applyFunctorOp, ApplyFilter]
  | priorityScore n => simp [applyFunctorOp]

/-- No functor invocation writes the edge-weight array. -/
theorem applyFunctorOp_d_weights (op : FunctorOp) (p : DataSlice) :
    (applyFunctorOp op p).d_weights = p.d_weights := by
  cases op with
  | condEdge s d e => rfl
  | applyEdge m s d => cases m <;> rfl
  | condFilter n => rfl
  | applyFilter n => rfl
  | priorityScore n => rfl

/-- No sequence of functor invocations writes the edge-weight array. -/
theorem runOps_d_weights (ops : List FunctorOp) (p : DataSlice) :
    (runOps ops p).d_weights = p.d_weights := by
  induction ops generalizing p with
  | nil => rfl
  | cons op ops ih =>
      exact (ih (applyFunctorOp op p)).trans (applyFunctorOp_d_weights op p)

/-- C1: `SSSPFunctor::CondEdge(s, d, problem, e_id)` computes the candidate
`labels[s] + weight[e_id]` (in the device's unsigned 32-bit arithmetic),
updates `labels[d]` to the minimum of its current value and the candidate,
leaves every other label unchanged, and returns true iff the candidate is
strictly less than the value `labels[d]` held before the update. -/
theorem c1_condEdge_relaxation (s_id d_id e_id : Int) (problem : DataSlice) :
    (CondEdge s_id d_id problem e_id).1.d_labels d_id
        = min (problem.d_labels d_id)
            ((problem.d_weights e_id + problem.d_labels s_id) % U32)
    ∧ (∀ v : Int, v ≠ d_id →
        (CondEdge s_id d_id problem e_id).1.d_labels v = problem.d_labels v)
    ∧ ((CondEdge s_id d_id problem e_id).2 = true ↔
        (problem.d_weights e_id + problem.d_labels s_id) % U32
          < problem.d_labels d_id) := by
  refine ⟨?_, ?_, ?_⟩
  · simp [CondEdge]
  · intro v hv
    simp [CondEdge, Function.update_noteq hv]
  · simp [CondEdge]

/-- Witness for C1 at concrete inputs: relaxing the edge 0→1 (source label
`UINT_MAX`, weight 5, destination label 10) updates `labels[1]` to
`min 10 ((5 + 4294967295) % 2^32) = 4` and leaves `labels[2]` at 7. -/
theorem c1_condEdge_relaxation_witness :
    (CondEdge 0 1 exampleSlice 0).1.d_labels 1 = 4
    ∧ (CondEdge 0 1 exampleSlice 0).1.d_labels 2 = 7 :=
  ⟨(c1_condEdge_relaxation 0 1 0 exampleSlice).1,
   (c1_condEdge_relaxation 0 1 0 exampleSlice).2.1 2 (by decide)⟩

/-- C2: labels never increase. Every functor invocation leaves each
`d_labels` entry less than or equal to its previous value (`CondEdge` only
replaces `labels[d]` by `min(labels[d], labels[s] + weight)`), so `d_labels`
is pointwise non-increasing across any sequence of relaxations. -/
theorem c2_labels_nonincreasing (ops : List FunctorOp) (p : DataSlice)
    (v : Int) : (runOps ops p).d_labels v ≤ p.d_labels v := by
  induction ops generalizing p with
  | nil => exact le_refl _
  | cons op ops ih =>
      exact le_trans (ih (applyFunctorOp op p)) (applyFunctorOp_labels_le op p v)

/-- C6: `SSSPFunctor::ApplyEdge(s, d, problem)` records
`predecessors[d] = s` when `MARK_PATHS` is enabled, changes nothing when it
is disabled, and in either case modifies no data-slice field other than
`d_preds[d]`. -/
theorem c6_applyEdge_frame (mark : Bool) (s_id d_id : Int)
    (problem : DataSlice) :
    (ApplyEdge mark s_id d_id problem).d_labels = problem.d_labels
    ∧ (ApplyEdge mark s_id d_id problem).d_weights = problem.d_weights
    ∧ (ApplyEdge mark s_id d_id problem).d_delta = problem.d_delta
    ∧ (mark = true → (ApplyEdge mark s_id d_id problem).d_preds d_id = s_id)
    ∧ (∀ v : Int, v ≠ d_id →
        (ApplyEdge mark s_id d_id problem).d_preds v = problem.d_preds v)
    ∧ (mark = false → ApplyEdge mark s_id d_id problem = problem) := by
  cases mark with
  | false => simp [ApplyEdge]
  | true =>
      refine ⟨rfl, rfl, rfl, fun _ => ?_, fun v hv => ?_, fun h => by cases h⟩
      · simp [ApplyEdge]
      · simp [ApplyEdge, Function.update_noteq hv]

/-- Witness for C6 at concrete inputs: with path marking on, relaxing edge
0→1 sets `d_preds[1] = 0` and leaves `d_preds[2]` at the sentinel -1; with
path marking off the slice is untouched. -/
theorem c6_applyEdge_frame_witness :
    (ApplyEdge true 0 1 exampleSlice).d_preds 1 = 0
    ∧ (ApplyEdge true 0 1 exampleSlice).d_preds 2 = -1
    ∧ ApplyEdge false 0 1 exampleSlice = exampleSlice :=
  ⟨(c6_applyEdge_frame true 0 1 exampleSlice).2.2.2.1 rfl,
   (c6_applyEdge_frame true 0 1 exampleSlice).2.2.2.2.1 2 (by decide),
   (c6_applyEdge_frame false 0 1 exampleSlice).2.2.2.2.2 rfl⟩

/-- C7: the SSSP Filter step is pure compaction: `CondFilter(v, problem)`
returns true iff `v` is not the sentinel -1, and `ApplyFilter` leaves the
data slice entirely unchanged. -/
theorem c7_filter_pure_compaction (node : Int) (problem : DataSlice) :
    (CondFilter node problem = true ↔ node ≠ -1)
    ∧ ApplyFilter node problem = problem := by
  constructor
  · simp [CondFilter]
  · rfl

/-- Witness for C7 at concrete inputs: vertex 3 is admitted, and
`ApplyFilter` fixes the example slice. -/
theorem c7_filter_pure_compaction_witness :
    CondFilter 3 exampleSlice = true
    ∧ ApplyFilter (-1) exampleSlice = exampleSlice :=
  ⟨(c7_filter_pure_compaction 3 exampleSlice).1.mpr (by decide),
   (c7_filter_pure_compaction (-1) exampleSlice).2⟩

/-- C8 counterexample: the device computes through binary32 floats, so the
score is not the exact `labels[v]` (or exact quotient) the claim states.
With `delta = 0` and `labels[v] = 2^24 + 1` the score is 2^24: the label is
rounded on conversion to float before it is returned. With
`labels[v] = UINT_MAX` and `delta = 2` the score is 2147483648, whereas the
exact truncated quotient `⌊UINT_MAX / 2⌋` is 2147483647: the conversion of
`UINT_MAX` rounds up to 2^32 before the division. -/
theorem c8_counterexample_float_rounding :
    ComputePriorityScore 0 exampleSliceBig = 16777216
    ∧ exampleSliceBig.d_labels 0 = 16777217
    ∧ exampleSliceBig.d_delta = 0
    ∧ ComputePriorityScore 0 exampleSliceHalf = 2147483648
    ∧ exampleSliceHalf.d_labels 0 = 4294967295
    ∧ exampleSliceHalf.d_delta = 2
    ∧ Int.floor ((4294967295 : ℚ) / 2) = 2147483647 := by
  refine ⟨?_, rfl, rfl, ?_, rfl, rfl, by norm_num⟩
  · simp only [ComputePriorityScore]
    rw [show exampleSliceBig.d_delta = (0 : ℚ) from rfl, if_pos rfl,
      show exampleSliceBig.d_labels 0 = 16777217 from rfl,
      cast_pow24_succ, f32Round_pow24_succ, f32ToUint_pow24]
  · simp only [ComputePriorityScore]
    rw [show exampleSliceHalf.d_delta = (2 : ℚ) from rfl, if_neg (by norm_num),
      show exampleSliceHalf.d_labels 0 = 4294967295 from rfl,
      cast_uintmax, f32Round_uintmax, f32Round_pow32_div_two, f32ToUint_pow31]

/-- C8 (amended): `PQFunctor::ComputePriorityScore(v, problem)` returns the
binary32 float value of `labels[v]` truncated back to unsigned int when
`delta = 0` — which is exactly `labels[v]` whenever `labels[v] < 2^24` —
and the binary32 quotient `float(labels[v]) / delta`, truncated to unsigned
int, otherwise; `delta = 0` thus degrades the priority order to the order
of the float-rounded labels. -/
theorem c8_priority_score (node_id : Int) (problem : DataSlice) :
    (problem.d_delta = 0 →
        ComputePriorityScore node_id problem
          = f32ToUint (f32Round (problem.d_labels node_id : ℚ)))
    ∧ (problem.d_delta = 0 → problem.d_labels node_id < 16777216 →
        ComputePriorityScore node_id problem = problem.d_labels node_id)
    ∧ (problem.d_delta ≠ 0 →
        ComputePriorityScore node_id problem
          = f32ToUint (f32Round (f32Round (problem.d_labels node_id : ℚ)
              / problem.d_delta))) := by
  refine ⟨fun h => ?_, fun h hlt => ?_, fun h => ?_⟩
  · simp [ComputePriorityScore, h]
  · simp only [ComputePriorityScore, h, if_pos]
    rw [f32Round_natCast_lt _ hlt, f32ToUint_natCast_lt _ (by omega)]
  · simp [ComputePriorityScore, h]

/-- Witness for C8's amended statement at concrete inputs: with `delta = 0`
and the sub-2^24 label 7 at vertex 2, the score is exactly 7. -/
theorem c8_priority_score_witness :
    exampleSliceDelta0.d_delta = 0
    ∧ exampleSliceDelta0.d_labels 2 < 16777216
    ∧ ComputePriorityScore 2 exampleSliceDelta0 = 7 :=
  ⟨rfl, by decide,
   (c8_priority_score 2 exampleSliceDelta0).2.1 rfl (by decide)⟩

/-- C10: the candidate distance in `SSSPFunctor::CondEdge` is computed in
unsigned 32-bit arithmetic, so it equals `(labels[s] + weight[e_id]) mod
2^32`; concretely, with `labels[s]` at the `UINT_MAX` infinity sentinel and
weight 5 the sum exceeds `2^32 - 1`, the candidate wraps to 4, wins the
atomic minimum against the destination's label 10, and the call returns
true. -/
theorem c10_unsigned_overflow_wraps :
    (∀ (problem : DataSlice) (s_id d_id e_id : Int),
      (CondEdge s_id d_id problem e_id).1.d_labels d_id
        = min (problem.d_labels d_id)
            ((problem.d_labels s_id + problem.d_weights e_id) % U32))
    ∧ U32 ≤ exampleSlice.d_labels 0 + exampleSlice.d_weights 0
    ∧ (CondEdge 0 1 exampleSlice 0).1.d_labels 1 = 4
    ∧ (CondEdge 0 1 exampleSlice 0).2 = true := by
  refine ⟨fun p s d e => ?_, by decide, by decide, by decide⟩
  simp [CondEdge, Nat.add_comm]

end SSSP

/-- C9: the graph store is immutable after construction: no functor entry
point (they receive only the `DataSlice` pointer) and no step of the CC
driver writes to any topology array; every operation leaves the graph
component of the state, the edge-weight array, and the caller's input graph
descriptor equal to their initial values. -/
theorem c9_graph_store_immutable (ops : List SSSP.FunctorOp)
    (st : SSSP.FullState) (cc_config : CC.GunrockConfig)
    (data_type : CC.GunrockDataType) (g : CC.GunrockGraph) :
    (SSSP.runOpsFull ops st).graph = st.graph
    ∧ (SSSP.runOpsFull ops st).slice.d_weights = st.slice.d_weights
    ∧ (CC.dispatch_cc cc_config data_type g).2 = g := by
  refine ⟨rfl, SSSP.runOps_d_weights ops st.slice, ?_⟩
  rcases data_type with ⟨vt, szt, vlt⟩
  cases vt
  cases szt
  cases vlt <;> rfl

namespace CC

/-- C3 counterexample: for the unimplemented combination
`(int, int, uint)` the entry point returns nothing to the caller
(`dispatch_cc` is `void`): no declared "unsupported type combination"
result reaches the caller. -/
theorem c3_counterexample_void_return :
    (dispatch_cc cfg0 dtUint g0).1.returnedResult = none := rfl

/-- C3 (amended): for every unimplemented value-type combination the
dispatch prints the declared "Not Yet Support This DataType Combination."
message and skips running CC — it does not crash and does not run silently
— but no result value is returned to the caller (the function is `void`). -/
theorem c3_unsupported_prints_not_returns (cc_config : GunrockConfig)
    (data_type : GunrockDataType) (g : GunrockGraph)
    (h : data_type.VALUE_TYPE = ValueType.VALUE_UINT
        ∨ data_type.VALUE_TYPE = ValueType.VALUE_FLOAT) :
    (dispatch_cc cc_config data_type g).1.ranWith = none
    ∧ (dispatch_cc cc_config data_type g).1.stdout = [unsupportedMsg]
    ∧ (dispatch_cc cc_config data_type g).1.returnedResult = none := by
  rcases data_type with ⟨vt, szt, vlt⟩
  cases vt
  cases szt
  cases vlt with
  | VALUE_INT => simp at h
  | VALUE_UINT => exact ⟨rfl, rfl, rfl⟩
  | VALUE_FLOAT => exact ⟨rfl, rfl, rfl⟩

/-- Witness for C3's amended statement at the concrete combination
`(int, int, float)`. -/
theorem c3_unsupported_prints_not_returns_witness :
    (dispatch_cc cfg0 dtFloat g0).1.ranWith = none
    ∧ (dispatch_cc cfg0 dtFloat g0).1.stdout = [unsupportedMsg]
    ∧ (dispatch_cc cfg0 dtFloat g0).1.returnedResult = none :=
  c3_unsupported_prints_not_returns cfg0 dtFloat g0 (Or.inr rfl)

/-- C4 counterexample: with a configuration requesting `max_grid_size = 5`
and `num_partitions = 2`, the supported `(int, int, int)` dispatch still
calls the engine with the hardcoded literals `max_grid_size = 0` and
`num_gpus = 1`: the caller's configuration is ignored. -/
theorem c4_counterexample_config_ignored :
    (dispatch_cc cfg0 dtInt g0).1.ranWith
        = some { max_grid_size := 0, num_gpus := 1 }
    ∧ cfg0.max_grid_size = 5
    ∧ cfg0.num_partitions = 2 :=
  ⟨rfl, rfl, rfl⟩

/-- C4 (amended): whenever `dispatch_cc` reaches the engine, the arguments
it passes are the hardcoded `max_grid_size = 0` (auto) and `num_gpus = 1`,
for every caller-supplied configuration: the configuration record is never
read. -/
theorem c4_engine_args_hardcoded (cc_config : GunrockConfig)
    (data_type : GunrockDataType) (g : GunrockGraph) (args : RunCCArgs)
    (h : (dispatch_cc cc_config data_type g).1.ranWith = some args) :
    args.max_grid_size = 0 ∧ args.num_gpus = 1 := by
  rcases data_type with ⟨vt, szt, vlt⟩
  cases vt
  cases szt
  cases vlt with
  | VALUE_INT =>
      simp [dispatch_cc] at h
      simp [← h]
  | VALUE_UINT => simp [dispatch_cc] at h
  | VALUE_FLOAT => simp [dispatch_cc] at h

/-- Witness for C4's amended statement at the concrete supported
combination. -/
theorem c4_engine_args_hardcoded_witness :
    ({ max_grid_size := 0, num_gpus := 1 } : RunCCArgs).max_grid_size = 0
    ∧ ({ max_grid_size := 0, num_gpus := 1 } : RunCCArgs).num_gpus = 1 :=
  c4_engine_args_hardcoded cfg0 dtInt g0 _ rfl

/-- C5 counterexample: when Problem `Init` fails, `run_cc` returns nothing
to its caller (the C function is `void`), so no structured result
distinguishing the failure reaches the caller. -/
theorem c5_counterexample_void_return :
    (run_cc { initOk := false, resetOk := true,
              enactOk := true, extractOk := true }).returnedResult
      = none := rfl

/-- C5 (amended): the CC host path reports failures only by printing: for
every combination of stage outcomes, `run_cc` prints the stage-specific
message exactly when that stage fails (so the printed report distinguishes
initialization, reset, enact, and extraction failures), never terminates
the host process, and returns nothing to the caller; `gunrock_cc_func`
likewise returns nothing on every path. -/
theorem c5_failures_printed_not_returned (oc : StageOutcomes)
    (cc_config : GunrockConfig) (data_type : GunrockDataType)
    (g : GunrockGraph) :
    (run_cc oc).returnedResult = none
    ∧ (run_cc oc).processTerminated = false
    ∧ ((msgInitFailed ∈ (run_cc oc).errorsPrinted) ↔ oc.initOk = false)
    ∧ ((msgResetFailed ∈ (run_cc oc).errorsPrinted) ↔ oc.resetOk = false)
    ∧ ((msgEnactFailed ∈ (run_cc oc).errorsPrinted) ↔ oc.enactOk = false)
    ∧ ((msgExtractFailed ∈ (run_cc oc).errorsPrinted) ↔ oc.extractOk = false)
    ∧ (gunrock_cc_func cc_config data_type g).1.returnedResult = none := by
  refine ⟨rfl, rfl, ?_, ?_, ?_, ?_, ?_⟩
  · rcases oc with ⟨i, r, e, x⟩
    cases i <;> cases r <;> cases e <;> cases x <;>
      simp [run_cc, GRError, msgInitFailed, msgResetFailed,
        msgEnactFailed, msgExtractFailed]
  · rcases oc with ⟨i, r, e, x⟩
    cases i <;> cases r <;> cases e <;> cases x <;>
      simp [run_cc, GRError, msgInitFailed, msgResetFailed,
        msgEnactFailed, msgExtractFailed]
  · rcases oc with ⟨i, r, e, x⟩
    cases i <;> cases r <;> cases e <;> cases x <;>
      simp [run_cc, GRError, msgInitFailed, msgResetFailed,
        msgEnactFailed, msgExtractFailed]
  · rcases oc with ⟨i, r, e, x⟩
    cases i <;> cases r <;> cases e <;> cases x <;>
      simp [run_cc, GRError, msgInitFailed, msgResetFailed,
        msgEnactFailed, msgExtractFailed]
  · rcases data_type with ⟨vt, szt, vlt⟩
    cases vt
    cases szt
    cases vlt <;> rfl

/-- Witness for C5's amended statement at a concrete outcome: a failed
`Enact` with all other stages succeeding prints the enact message, and a
failed `Reset` prints the reset message. -/
theorem c5_failures_printed_not_returned_witness :
    msgEnactFailed ∈ (run_cc { initOk := true, resetOk := true,
                               enactOk := false, extractOk := true
                             }).errorsPrinted
    ∧ msgResetFailed ∈ (run_cc { initOk := true, resetOk := false,
                                 enactOk := true, extractOk := true
                               }).errorsPrinted :=
  ⟨((c5_failures_printed_not_returned
      { initOk := true, resetOk := true, enactOk := false, extractOk := true }
      cfg0 dtInt g0).2.2.2.2.1).mpr rfl,
   ((c5_failures_printed_not_returned
      { initOk := true, resetOk := false, enactOk := true, extractOk := true }
      cfg0 dtInt g0).2.2.2.1).mpr rfl⟩

end CC

end Gunrock
